import Mathlib

/-!
Shallow embedding of `examples/contrib/graph_lottery_ticket.py`.

The script is a linear driver: parse arguments, load a Planetoid dataset,
optionally augment the graph for link prediction, select and build one of
three GNN constructors, optionally wrap the model in `LinkPredictor`, and
hand everything to `GLTSearch(...).prune()`.  The external framework calls
(dataset loading, negative sampling, model construction, the pruning
search) are abstracted as oracle parameters; everything the script itself
computes is embedded directly from the source.
-/

namespace GLT

/-- Python exceptions as far as this script is concerned: every error the
script itself raises is a `ValueError` carrying a message. -/
inductive PyError
  | valueError (msg : String)
  deriving DecidableEq, Repr

/-- The three architectures the script selects among. -/
inductive ModelKind
  | gcn | gin | gat
  deriving DecidableEq, Repr

/-- One `GCN/GIN/GAT(...)` constructor call exactly as the script makes it:
`in_channels=dataset.num_node_features`, `output_channels=hidden_channels`,
`hidden_channels=hidden_channels`, `num_layers=2` with `hidden_channels = 512`. -/
structure GNNInit where
  kind : ModelKind
  in_channels : Nat
  output_channels : Nat
  hidden_channels : Nat
  num_layers : Nat
  deriving DecidableEq, Repr

/-- The loaded `Data` object: the node-feature count, `edge_index` as a list
of columns (pairs of endpoints), and the `edges` / `edge_labels` attributes
that `generate_edge_data` installs (absent before it runs). -/
structure Graph where
  numFeatures : Nat
  edge_index : List (Nat × Nat)
  edges : Option (List (Nat × Nat)) := none
  edge_labels : Option (List Nat) := none
  deriving DecidableEq, Repr

/-- Embedding of `generate_edge_data(dataset)`.  The external
`torch_geometric.utils.negative_sampling` is passed in as `negSample`.
Source, line by line:
`negative_edges = negative_sampling(dataset.edge_index)`;
`edge_labels = [0] * negative_edges.shape[-1] + [1] * dataset.edge_index.shape[-1]`;
`dataset.edges = torch.cat([dataset.edge_index, negative_edges], dim=-1)`;
`dataset.edge_labels = torch.tensor(edge_labels)`. -/
def generateEdgeData (negSample : List (Nat × Nat) → List (Nat × Nat))
    (g : Graph) : Graph :=
  let negative_edges := negSample g.edge_index
  let edge_labels :=
    List.replicate negative_edges.length 0 ++ List.replicate g.edge_index.length 1
  { g with
    edges := some (g.edge_index ++ negative_edges)
    edge_labels := some edge_labels }

/-- A concrete one-edge graph used to evaluate `generate_edge_data`. -/
def gOneEdge : Graph := { numFeatures := 1, edge_index := [(0, 1)] }

/-! ### Parameter storage model for `baseline`

`baseline` captures `initial_params = model.state_dict()` on entry, runs 200
`Adam` steps, and calls `model.load_state_dict(initial_params)` on exit.
PyTorch's `state_dict()` is documented to return a shallow copy: the tensors
in the returned dict are (detached) references sharing storage with the
module's live parameters, and `Adam.step()` updates those parameters in
place.  We model tensor storage as a heap of addresses holding values; a
module owns a fixed list of parameter addresses, `state_dict` returns those
addresses, and `load_state_dict` copies the values currently stored at the
dict's addresses into the module's parameter addresses. -/

/-- A module's parameters: the heap addresses of its parameter tensors. -/
structure PModel where
  addrs : List Nat
  deriving DecidableEq, Repr

/-- Tensor storage: a value for every address. -/
structure Heap where
  mem : Nat → Int

/-- The current values of the module's parameters. -/
def readParams (m : PModel) (h : Heap) : List Int :=
  m.addrs.map h.mem

/-- `model.state_dict()`: a shallow copy, i.e. the parameter addresses
themselves (the returned tensors share storage with the live parameters). -/
def stateDict (m : PModel) : List Nat :=
  m.addrs

/-- Write `vals` into `addrs` pointwise (extra addresses or values are
ignored, matching a strict one-to-one copy for equal lengths). -/
def writeVals : List Nat → List Int → (Nat → Int) → Nat → Int
  | a :: as, v :: vs, mem => writeVals as vs (fun n => if n = a then v else mem n)
  | _, _, mem => mem

/-- `model.load_state_dict(sd)`: copy the values currently stored at the
state dict's addresses into the module's parameter addresses. -/
def loadStateDict (m : PModel) (sd : List Nat) (h : Heap) : Heap :=
  ⟨writeVals m.addrs (sd.map h.mem) h.mem⟩

/-- One `optimizer.step()`: an in-place update of the parameter values by an
abstract update function `step` (the Adam arithmetic is external). -/
def optimStep (step : List Int → List Int) (m : PModel) (h : Heap) : Heap :=
  ⟨writeVals m.addrs (step (readParams m h)) h.mem⟩

/-- The effect of `baseline` on the model's parameters:
`initial_params = model.state_dict()` on entry, 200 optimizer steps
(`tqdm.trange(200)`), then `model.load_state_dict(initial_params)` on exit. -/
def baselineParamEffect (step : List Int → List Int) (m : PModel) (h : Heap) : Heap :=
  let initial_params := stateDict m
  loadStateDict m initial_params ((optimStep step m)^[200] h)

/-- A one-parameter module at address 0. -/
def mOne : PModel := ⟨[0]⟩

/-- A heap whose every address holds 0. -/
def hZero : Heap := ⟨fun _ => 0⟩

/-- C10: `generate_edge_data` builds `edges` with the original (positive)
columns first, but builds `edge_labels` as `[0] * num_negative ++ [1] *
num_positive`, so the labels are not position-aligned with the columns: on a
one-edge graph with one sampled negative edge, column 0 of `edges` is the
original edge `(0, 1)` yet entry 0 of `edge_labels` is `0`, and the negative
column `(1, 2)` gets label `1`. -/
theorem edge_labels_misaligned :
    (generateEdgeData (fun _ => [(1, 2)]) gOneEdge).edges = some [(0, 1), (1, 2)]
    ∧ (generateEdgeData (fun _ => [(1, 2)]) gOneEdge).edge_labels = some [0, 1]
    ∧ (0, 1) ∈ gOneEdge.edge_index ∧ (1, 2) ∉ gOneEdge.edge_index := by
  decide

set_option maxRecDepth 8000 in
/-- C8: `baseline` does not restore the entry parameters.  `state_dict()`
aliases the live parameter tensors, so after 200 in-place optimizer steps
`load_state_dict(initial_params)` copies the already-trained values back onto
themselves: with one parameter starting at 0 and a step that adds 1, the
parameter holds 200 after `baseline`, not the entry value 0. -/
theorem params_not_restored :
    readParams mOne hZero = [0]
    ∧ readParams mOne (baselineParamEffect (fun ps => ps.map (· + 1)) mOne hZero) = [200]
    ∧ ([200] : List Int) ≠ [0] := by
  decide

/-! ### The `__main__` flow -/

/-- The parsed command-line arguments (the result of `parser.parse_args()`).
`task` has no default, so it is `none` when the flag is not supplied; the
float-typed arguments are modelled as rationals. -/
structure Args where
  dataset : String := "Cora"
  model : String := "gcn"
  reg_graph : Rat := 1 / 1000
  reg_model : Rat := 1 / 1000
  prune_rate_graph : Rat := 1 / 20
  prune_rate_model : Rat := 4 / 5
  task : Option String := none
  verbose : Bool := false
  deriving DecidableEq, Repr

/-- The observable stages of the script's `__main__` block, in the order the
source performs them. -/
inductive Step
  | parseArgs | loadDataset | generateEdgeData | buildModel
  | wrapLinkPredictor | baselineTraining | gltPrune
  deriving DecidableEq, Repr

/-- The loss function the script picks for `GLTSearch`:
`binary_cross_entropy_with_logits` for link prediction, else `cross_entropy`. -/
inductive LossKind
  | bce | ce
  deriving DecidableEq, Repr

/-- The constructor options the script passes to `GLTSearch` besides the
module, graph and task: `lr=8e-3`, the four regularization / prune-rate
arguments, `optim_args={"weight_decay": 8e-5}`, `seed=1234`, `verbose`,
`ignore_keys={"eps"}`, `max_train_epochs=200`, and the selected `loss_fn`. -/
structure PruneCfg where
  lr : Rat
  reg_graph : Rat
  reg_model : Rat
  prune_rate_graph : Rat
  prune_rate_model : Rat
  weight_decay : Rat
  seed : Nat
  verbose : Bool
  ignore_keys : List String
  max_train_epochs : Nat
  loss_fn : LossKind
  deriving DecidableEq, Repr

/-- The module handed to the pruning search: the bare GNN, or the GNN
wrapped in `LinkPredictor`. -/
inductive ModuleArg
  | plain (gnn : GNNInit)
  | linkPredictor (gnn : GNNInit)
  deriving DecidableEq, Repr

/-- What a completed run of `__main__` produced: the stages performed in
order, the graph in its final state, and the module passed to
`GLTSearch(...)`. -/
structure RunResult where
  steps : List Step
  graph : Graph
  module : ModuleArg
  deriving DecidableEq, Repr

/-- The external framework calls the script makes, as oracles.  A Python
exception raised inside one of them is its `Except.error` result. -/
structure Externals where
  loadDataset : Except PyError Graph
  negSample : List (Nat × Nat) → List (Nat × Nat)
  build : GNNInit → Except PyError Unit
  prune : Option String → ModuleArg → Graph → PruneCfg → Except PyError Unit

/-- Python's `str.lower()`, modelled as character-wise lowercasing. -/
def pyLower (s : String) : String := ⟨s.data.map Char.toLower⟩

/-- The message of the `ValueError` raised for an unsupported model name. -/
def modelErrMsg : String := "model must be one of gcn, gin, gat"

/-- The model-selection branch of `__main__`: dispatch on
`args.model.lower()` over `"gcn"`, `"gin"`, `"gat"`, else
`raise ValueError("model must be one of gcn, gin, gat")`. -/
def selectModel (m : String) : Except PyError ModelKind :=
  if pyLower m = "gcn" then .ok .gcn
  else if pyLower m = "gin" then .ok .gin
  else if pyLower m = "gat" then .ok .gat
  else .error (.valueError modelErrMsg)

/-- The constructor call made in the selected branch:
`in_channels=dataset.num_node_features`, `output_channels=hidden_channels`,
`hidden_channels=hidden_channels`, `num_layers=2`, with
`hidden_channels = 512`. -/
def mkGNN (kind : ModelKind) (numNodeFeatures : Nat) : GNNInit :=
  { kind := kind
    in_channels := numNodeFeatures
    output_channels := 512
    hidden_channels := 512
    num_layers := 2 }

/-- The `GLTSearch` constructor options as `__main__` fills them in. -/
def mkCfg (args : Args) : PruneCfg :=
  { lr := 8 / 1000
    reg_graph := args.reg_graph
    reg_model := args.reg_model
    prune_rate_graph := args.prune_rate_graph
    prune_rate_model := args.prune_rate_model
    weight_decay := 8 / 100000
    seed := 1234
    verbose := args.verbose
    ignore_keys := ["eps"]
    max_train_epochs := 200
    loss_fn := if args.task = some "link_prediction" then .bce else .ce }

/-- Embedding of the `__main__` block after `parse_args()`: load the
dataset; if the task is `"link_prediction"`, run `generate_edge_data`;
select and build the model; if the task is `"link_prediction"`, wrap the
model in `LinkPredictor`; construct `GLTSearch` and call `prune()`.  The
line `baseline(gnn, data, args.task, args.verbose)` is commented out in the
source, so no baseline-training stage appears.  An uncaught exception from
an external call ends the run with that error (the script installs no
handler). -/
def mainRun (ext : Externals) (args : Args) : Except PyError RunResult :=
  match ext.loadDataset with
  | .error e => .error e
  | .ok data0 =>
    let data :=
      if args.task = some "link_prediction" then generateEdgeData ext.negSample data0
      else data0
    match selectModel args.model with
    | .error e => .error e
    | .ok kind =>
      let gnn := mkGNN kind data0.numFeatures
      match ext.build gnn with
      | .error e => .error e
      | .ok _ =>
        let module :=
          if args.task = some "link_prediction" then ModuleArg.linkPredictor gnn
          else ModuleArg.plain gnn
        match ext.prune args.task module data (mkCfg args) with
        | .error e => .error e
        | .ok _ =>
          .ok
            { steps :=
                [Step.parseArgs, Step.loadDataset]
                  ++ (if args.task = some "link_prediction" then [Step.generateEdgeData] else [])
                  ++ [Step.buildModel]
                  ++ (if args.task = some "link_prediction" then [Step.wrapLinkPredictor] else [])
                  ++ [Step.gltPrune]
              graph := data
              module := module }

/-- Modelled from the spec: `GLTSearch.prune` is code of this repository
(`torch_geometric.contrib.nn`) that is not under `src/`; only its caller is.
Per the spec's error-handling section, supplying an unsupported task raises
a generic `ValueError` identifying the task as unsupported (the message
follows the wording the repository's `baseline` uses for the same check);
for the two supported tasks the search proceeds, its numerical behaviour
being external. -/
def gltPruneModel (task : Option String) (_module : ModuleArg) (_graph : Graph)
    (_cfg : PruneCfg) : Except PyError Unit :=
  if task = some "node_classification" ∨ task = some "link_prediction" then .ok ()
  else
    .error
      (.valueError ((match task with | some t => t | none => "None")
        ++ " must be one of node class. or link pred."))

/-- Externals in which loading succeeds with `g`, negative sampling returns
no edges, model construction succeeds, and the pruning search behaves as the
spec-modelled `gltPruneModel`. -/
def specExternals (g : Graph) : Externals :=
  { loadDataset := .ok g
    negSample := fun _ => []
    build := fun _ => .ok ()
    prune := gltPruneModel }

instance {ε α : Type} [DecidableEq ε] [DecidableEq α] : DecidableEq (Except ε α) := fun a b =>
  match a, b with
  | .ok x, .ok y =>
    if h : x = y then isTrue (by rw [h]) else isFalse (by intro hc; cases hc; exact h rfl)
  | .error x, .error y =>
    if h : x = y then isTrue (by rw [h]) else isFalse (by intro hc; cases hc; exact h rfl)
  | .ok _, .error _ => isFalse (by intro hc; cases hc)
  | .error _, .ok _ => isFalse (by intro hc; cases hc)

/-- A node-classification invocation with default dataset and model. -/
def argsNC : Args := { task := some "node_classification" }

/-- A link-prediction invocation with default dataset and model. -/
def argsLP : Args := { task := some "link_prediction" }

/-- An invocation whose task is neither supported value. -/
def argsBadTask : Args := { task := some "graph_classification" }

/-- An invocation with an unsupported model name. -/
def argsBadModel : Args := { model := "transformer", task := some "node_classification" }

/-- The run result of the link-prediction invocation under `specExternals
gOneEdge` (negative sampling returns no edges there). -/
def rLP : RunResult :=
  { steps := [Step.parseArgs, Step.loadDataset, Step.generateEdgeData, Step.buildModel,
              Step.wrapLinkPredictor, Step.gltPrune]
    graph := { numFeatures := 1, edge_index := [(0, 1)], edges := some [(0, 1)],
               edge_labels := some [1] }
    module := ModuleArg.linkPredictor (mkGNN ModelKind.gcn 1) }

/-- C1 counterexample: a concrete valid invocation (defaults, task
`node_classification`) runs to completion performing parse, load, build and
the pruning search, but no baseline-training stage: the call
`baseline(gnn, data, args.task, args.verbose)` is commented out in the
source, so the pruning search runs without baseline training ever being
performed. -/
theorem no_baseline_step_in_main_run :
    mainRun (specExternals gOneEdge) argsNC =
      Except.ok
        { steps := [Step.parseArgs, Step.loadDataset, Step.buildModel, Step.gltPrune]
          graph := gOneEdge
          module := ModuleArg.plain (mkGNN ModelKind.gcn 1) }
    ∧ Step.baselineTraining ∉ [Step.parseArgs, Step.loadDataset, Step.buildModel, Step.gltPrune]
    ∧ Step.gltPrune ∈ [Step.parseArgs, Step.loadDataset, Step.buildModel, Step.gltPrune] := by
  decide

/-- C1 (amended): every completed run of `__main__` performs exactly
parse args → load dataset → (augment the graph, when the task is
link prediction) → build the model → (wrap it, when the task is link
prediction) → pruning search, and never a baseline-training stage. -/
theorem main_run_steps (ext : Externals) (args : Args) (r : RunResult)
    (h : mainRun ext args = Except.ok r) :
    r.steps =
      [Step.parseArgs, Step.loadDataset]
        ++ (if args.task = some "link_prediction" then [Step.generateEdgeData] else [])
        ++ [Step.buildModel]
        ++ (if args.task = some "link_prediction" then [Step.wrapLinkPredictor] else [])
        ++ [Step.gltPrune]
    ∧ Step.baselineTraining ∉ r.steps := by
  unfold mainRun at h
  rcases hld : ext.loadDataset with e | data0
  · rw [hld] at h; simp at h
  rw [hld] at h
  dsimp only at h
  rcases hsel : selectModel args.model with e | kind
  · rw [hsel] at h; simp at h
  rw [hsel] at h
  dsimp only at h
  by_cases htask : args.task = some "link_prediction"
  · simp only [if_pos htask] at h ⊢
    rcases hb : ext.build (mkGNN kind data0.numFeatures) with e | u
    · rw [hb] at h; simp at h
    rw [hb] at h
    dsimp only at h
    rcases hp : ext.prune args.task (ModuleArg.linkPredictor (mkGNN kind data0.numFeatures))
        (generateEdgeData ext.negSample data0) (mkCfg args) with e | u
    · rw [hp] at h; simp at h
    rw [hp] at h
    dsimp only at h
    injection h with h
    subst h
    exact ⟨rfl, by simp⟩
  · simp only [if_neg htask] at h ⊢
    rcases hb : ext.build (mkGNN kind data0.numFeatures) with e | u
    · rw [hb] at h; simp at h
    rw [hb] at h
    dsimp only at h
    rcases hp : ext.prune args.task (ModuleArg.plain (mkGNN kind data0.numFeatures))
        data0 (mkCfg args) with e | u
    · rw [hp] at h; simp at h
    rw [hp] at h
    dsimp only at h
    injection h with h
    subst h
    exact ⟨rfl, by simp⟩

/-- C1 witness: the amended flow at the concrete link-prediction
invocation. -/
theorem main_run_steps_witness :
    rLP.steps =
      [Step.parseArgs, Step.loadDataset]
        ++ (if argsLP.task = some "link_prediction" then [Step.generateEdgeData] else [])
        ++ [Step.buildModel]
        ++ (if argsLP.task = some "link_prediction" then [Step.wrapLinkPredictor] else [])
        ++ [Step.gltPrune]
    ∧ Step.baselineTraining ∉ rLP.steps :=
  main_run_steps (specExternals gOneEdge) argsLP rLP (by decide)

/-- C2: for every supplied task other than `"node_classification"` and
`"link_prediction"`, the run raises a `ValueError` identifying the task as
unsupported.  The error comes from the pruning search (spec-modelled
`gltPruneModel`): the script's own task check lives in `baseline`, which
`__main__` never calls. -/
theorem unsupported_task_raises (g : Graph) (args : Args) (t : String)
    (ht : args.task = some t)
    (h1 : t ≠ "node_classification") (h2 : t ≠ "link_prediction")
    (hm : pyLower args.model = "gcn" ∨ pyLower args.model = "gin" ∨ pyLower args.model = "gat") :
    mainRun (specExternals g) args =
      Except.error (.valueError (t ++ " must be one of node class. or link pred.")) := by
  have hlp : ¬ args.task = some "link_prediction" := by simp [ht, h2]
  have hsel : ∃ k, selectModel args.model = Except.ok k := by
    rcases hm with h | h | h
    · exact ⟨ModelKind.gcn, by unfold selectModel; rw [h]; decide⟩
    · exact ⟨ModelKind.gin, by unfold selectModel; rw [h]; decide⟩
    · exact ⟨ModelKind.gat, by unfold selectModel; rw [h]; decide⟩
  obtain ⟨k, hk⟩ := hsel
  unfold mainRun specExternals
  dsimp only
  simp only [if_neg hlp]
  rw [hk]
  dsimp only
  unfold gltPruneModel
  rw [ht]
  rw [if_neg (by simp [h1, h2])]

/-- C2 witness: the concrete unsupported task `"graph_classification"`. -/
theorem unsupported_task_raises_witness :
    mainRun (specExternals gOneEdge) argsBadTask =
      Except.error
        (.valueError ("graph_classification" ++ " must be one of node class. or link pred.")) :=
  unsupported_task_raises gOneEdge argsBadTask "graph_classification" rfl
    (by decide) (by decide) (Or.inl (by decide))

/-- C3: a supplied model name whose lowercase form is none of `"gcn"`,
`"gin"`, `"gat"` makes the run raise
`ValueError("model must be one of gcn, gin, gat")` (once the dataset has
loaded), and for each of the three supported names the model check passes. -/
theorem model_name_check (ext : Externals) (args : Args) (g : Graph)
    (hl : ext.loadDataset = Except.ok g)
    (h1 : pyLower args.model ≠ "gcn") (h2 : pyLower args.model ≠ "gin")
    (h3 : pyLower args.model ≠ "gat") :
    mainRun ext args = Except.error (.valueError modelErrMsg)
    ∧ selectModel "gcn" = Except.ok ModelKind.gcn
    ∧ selectModel "gin" = Except.ok ModelKind.gin
    ∧ selectModel "gat" = Except.ok ModelKind.gat := by
  refine ⟨?_, by decide, by decide, by decide⟩
  have hsel : selectModel args.model = Except.error (.valueError modelErrMsg) := by
    unfold selectModel
    rw [if_neg h1, if_neg h2, if_neg h3]
  unfold mainRun
  rw [hl]
  dsimp only
  rw [hsel]

/-- C3 witness: the concrete unsupported model name `"transformer"`. -/
theorem model_name_check_witness :
    mainRun (specExternals gOneEdge) argsBadModel = Except.error (.valueError modelErrMsg)
    ∧ selectModel "gcn" = Except.ok ModelKind.gcn
    ∧ selectModel "gin" = Except.ok ModelKind.gin
    ∧ selectModel "gat" = Except.ok ModelKind.gat :=
  model_name_check (specExternals gOneEdge) argsBadModel gOneEdge rfl
    (by decide) (by decide) (by decide)

/-- Whether the module handed to the pruning search is wrapped in
`LinkPredictor`. -/
def isWrapped : ModuleArg → Bool
  | .linkPredictor _ => true
  | .plain _ => false

/-- C5: model construction dispatches on the lowercased model argument —
`"gcn"`, `"gin"`, `"gat"` select the corresponding constructor — and every
constructor call receives the dataset's node-feature count as
`in_channels`, 512 hidden channels and 2 layers. -/
theorem model_selection_args (m : String) (nf : Nat) :
    (pyLower m = "gcn" → selectModel m = Except.ok ModelKind.gcn)
    ∧ (pyLower m = "gin" → selectModel m = Except.ok ModelKind.gin)
    ∧ (pyLower m = "gat" → selectModel m = Except.ok ModelKind.gat)
    ∧ (∀ k, (mkGNN k nf).kind = k ∧ (mkGNN k nf).in_channels = nf
        ∧ (mkGNN k nf).hidden_channels = 512 ∧ (mkGNN k nf).num_layers = 2) := by
  refine ⟨?_, ?_, ?_, fun k => ⟨rfl, rfl, rfl, rfl⟩⟩
  · intro h; unfold selectModel; rw [h]; decide
  · intro h; unfold selectModel; rw [h]; decide
  · intro h; unfold selectModel; rw [h]; decide

/-- C5 witness: the uppercase spelling `"GCN"` and Cora's feature count. -/
theorem model_selection_args_witness :
    selectModel "GCN" = Except.ok ModelKind.gcn
    ∧ (mkGNN ModelKind.gcn 1433).kind = ModelKind.gcn
    ∧ (mkGNN ModelKind.gcn 1433).in_channels = 1433
    ∧ (mkGNN ModelKind.gcn 1433).hidden_channels = 512
    ∧ (mkGNN ModelKind.gcn 1433).num_layers = 2 :=
  ⟨(model_selection_args "GCN" 1433).1 (by decide),
   (model_selection_args "GCN" 1433).2.2.2 ModelKind.gcn⟩

/-- C6: in a completed run, the module handed to the pruning search is
wrapped in `LinkPredictor` and the graph is augmented by
`generate_edge_data` exactly when the task is `"link_prediction"`; for any
other task value the module is passed bare and the graph is the loaded one,
untouched. -/
theorem link_prediction_wrap_iff (ext : Externals) (args : Args) (g : Graph) (r : RunResult)
    (hl : ext.loadDataset = Except.ok g) (h : mainRun ext args = Except.ok r) :
    (args.task = some "link_prediction" →
      isWrapped r.module = true ∧ r.graph = generateEdgeData ext.negSample g)
    ∧ (args.task ≠ some "link_prediction" →
      isWrapped r.module = false ∧ r.graph = g) := by
  unfold mainRun at h
  rw [hl] at h
  dsimp only at h
  rcases hsel : selectModel args.model with e | kind
  · rw [hsel] at h; simp at h
  rw [hsel] at h
  dsimp only at h
  by_cases htask : args.task = some "link_prediction"
  · simp only [if_pos htask] at h
    rcases hb : ext.build (mkGNN kind g.numFeatures) with e | u
    · rw [hb] at h; simp at h
    rw [hb] at h
    dsimp only at h
    rcases hp : ext.prune args.task (ModuleArg.linkPredictor (mkGNN kind g.numFeatures))
        (generateEdgeData ext.negSample g) (mkCfg args) with e | u
    · rw [hp] at h; simp at h
    rw [hp] at h
    dsimp only at h
    injection h with h
    subst h
    exact ⟨fun _ => ⟨rfl, rfl⟩, fun hc => absurd htask hc⟩
  · simp only [if_neg htask] at h
    rcases hb : ext.build (mkGNN kind g.numFeatures) with e | u
    · rw [hb] at h; simp at h
    rw [hb] at h
    dsimp only at h
    rcases hp : ext.prune args.task (ModuleArg.plain (mkGNN kind g.numFeatures))
        g (mkCfg args) with e | u
    · rw [hp] at h; simp at h
    rw [hp] at h
    dsimp only at h
    injection h with h
    subst h
    exact ⟨fun hc => absurd hc htask, fun _ => ⟨rfl, rfl⟩⟩

/-- C6 witness: the concrete link-prediction run. -/
theorem link_prediction_wrap_iff_witness :
    isWrapped rLP.module = true
    ∧ rLP.graph = generateEdgeData (specExternals gOneEdge).negSample gOneEdge :=
  (link_prediction_wrap_iff (specExternals gOneEdge) argsLP gOneEdge rLP rfl (by decide)).1 rfl

/-- Helper: the only error `selectModel` itself produces is the
model-name `ValueError`. -/
theorem selectModel_error_msg (m : String) (e : PyError)
    (h : selectModel m = Except.error e) : e = PyError.valueError modelErrMsg := by
  unfold selectModel at h
  split at h
  · simp at h
  split at h
  · simp at h
  split at h
  · simp at h
  · injection h with h
    exact h.symm

/-- C7: the script installs no exception handling of its own.  If dataset
loading fails, the run fails with exactly that error; and every error a run
ends with is either the script's own model-name `ValueError` or exactly an
error produced by one of the external calls (dataset loading, model
construction, pruning search), unmodified. -/
theorem errors_propagate (ext : Externals) (args : Args) :
    (∀ e, ext.loadDataset = Except.error e → mainRun ext args = Except.error e)
    ∧ (∀ e, mainRun ext args = Except.error e →
        e = PyError.valueError modelErrMsg
        ∨ ext.loadDataset = Except.error e
        ∨ (∃ i, ext.build i = Except.error e)
        ∨ (∃ t md gr c, ext.prune t md gr c = Except.error e)) := by
  constructor
  · intro e he
    unfold mainRun
    rw [he]
  · intro e he
    unfold mainRun at he
    rcases hld : ext.loadDataset with e0 | data0
    · rw [hld] at he
      dsimp only at he
      injection he with he
      subst he
      exact Or.inr (Or.inl rfl)
    rw [hld] at he
    dsimp only at he
    rcases hsel : selectModel args.model with e1 | kind
    · rw [hsel] at he
      dsimp only at he
      injection he with he
      subst he
      exact Or.inl (selectModel_error_msg _ _ hsel)
    rw [hsel] at he
    dsimp only at he
    by_cases htask : args.task = some "link_prediction"
    · simp only [if_pos htask] at he
      rcases hb : ext.build (mkGNN kind data0.numFeatures) with e2 | u
      · rw [hb] at he
        dsimp only at he
        injection he with he
        subst he
        exact Or.inr (Or.inr (Or.inl ⟨_, hb⟩))
      rw [hb] at he
      dsimp only at he
      rcases hp : ext.prune args.task (ModuleArg.linkPredictor (mkGNN kind data0.numFeatures))
          (generateEdgeData ext.negSample data0) (mkCfg args) with e3 | u
      · rw [hp] at he
        dsimp only at he
        injection he with he
        subst he
        exact Or.inr (Or.inr (Or.inr ⟨_, _, _, _, hp⟩))
      rw [hp] at he
      simp at he
    · simp only [if_neg htask] at he
      rcases hb : ext.build (mkGNN kind data0.numFeatures) with e2 | u
      · rw [hb] at he
        dsimp only at he
        injection he with he
        subst he
        exact Or.inr (Or.inr (Or.inl ⟨_, hb⟩))
      rw [hb] at he
      dsimp only at he
      rcases hp : ext.prune args.task (ModuleArg.plain (mkGNN kind data0.numFeatures))
          data0 (mkCfg args) with e3 | u
      · rw [hp] at he
        dsimp only at he
        injection he with he
        subst he
        exact Or.inr (Or.inr (Or.inr ⟨_, _, _, _, hp⟩))
      rw [hp] at he
      simp at he

/-- Externals whose dataset loading raises. -/
def extFailLoad : Externals :=
  { specExternals gOneEdge with
    loadDataset := Except.error (.valueError "dataset download failed") }

/-- C7 witness: a failing dataset load surfaces unmodified. -/
theorem errors_propagate_witness :
    mainRun extFailLoad argsNC = Except.error (.valueError "dataset download failed") :=
  (errors_propagate extFailLoad argsNC).1 _ rfl

/-! ### The argument parser configuration -/

/-- An `add_argument` default: a string, a float (modelled as a rational),
or no default (argparse's `None`). -/
inductive DefaultVal
  | str (s : String)
  | rat (q : Rat)
  | none
  deriving DecidableEq, Repr

/-- One `parser.add_argument(...)` call: optional short flag, long flag,
default, whether `type=float` was given, and whether it is an
`action=store_true` switch. -/
structure ArgSpec where
  short : Option String
  long : String
  dflt : DefaultVal
  isFloat : Bool
  storeTrue : Bool
  deriving DecidableEq, Repr

/-- `parser.add_argument(...)` registers one more argument. -/
def addArgument (p : List ArgSpec) (a : ArgSpec) : List ArgSpec := p ++ [a]

/-- The parser `__main__` builds, one `add_argument` call per line of the
source, in order. -/
def cliParserSpec : List ArgSpec :=
  ([] : List ArgSpec)
    |> (addArgument · ⟨some "-d", "--dataset", DefaultVal.str "Cora", false, false⟩)
    |> (addArgument · ⟨some "-m", "--model", DefaultVal.str "gcn", false, false⟩)
    |> (addArgument · ⟨none, "--reg_graph", DefaultVal.rat (1 / 1000), true, false⟩)
    |> (addArgument · ⟨none, "--reg_model", DefaultVal.rat (1 / 1000), true, false⟩)
    |> (addArgument · ⟨none, "--prune_rate_graph", DefaultVal.rat (1 / 20), true, false⟩)
    |> (addArgument · ⟨none, "--prune_rate_model", DefaultVal.rat (4 / 5), true, false⟩)
    |> (addArgument · ⟨none, "--task", DefaultVal.none, false, false⟩)
    |> (addArgument · ⟨some "-v", "--verbose", DefaultVal.none, false, true⟩)

/-- Whether the parser accepts a given flag string. -/
def acceptsFlag (p : List ArgSpec) (f : String) : Bool :=
  p.any fun a => some f == a.short || f == a.long

/-- The registered default of the argument with the given long flag. -/
def defaultOf (p : List ArgSpec) (long : String) : Option DefaultVal :=
  (p.find? fun a => a.long == long).map ArgSpec.dflt

/-- Whether the argument with the given long flag was declared `type=float`. -/
def floatTyped (p : List ArgSpec) (long : String) : Option Bool :=
  (p.find? fun a => a.long == long).map ArgSpec.isFloat

/-- Whether the argument with the given long flag is a `store_true` switch. -/
def storeTrueOf (p : List ArgSpec) (long : String) : Option Bool :=
  (p.find? fun a => a.long == long).map ArgSpec.storeTrue

/-- C4: the CLI accepts exactly the flags the spec lists —
`-d` / `--dataset` (default `"Cora"`), `-m` / `--model` (default `"gcn"`),
float-typed `--reg_graph`/`--reg_model` (default 0.001) and
`--prune_rate_graph` (default 0.05) / `--prune_rate_model` (default 0.8),
`--task` with no default, and the switch `-v` / `--verbose` — and no others. -/
theorem cli_flags_spec :
    (∀ f, acceptsFlag cliParserSpec f = true ↔
      f ∈ ["-d", "--dataset", "-m", "--model", "--reg_graph", "--reg_model",
           "--prune_rate_graph", "--prune_rate_model", "--task", "-v", "--verbose"])
    ∧ defaultOf cliParserSpec "--dataset" = some (DefaultVal.str "Cora")
    ∧ defaultOf cliParserSpec "--model" = some (DefaultVal.str "gcn")
    ∧ defaultOf cliParserSpec "--reg_graph" = some (DefaultVal.rat (1 / 1000))
    ∧ defaultOf cliParserSpec "--reg_model" = some (DefaultVal.rat (1 / 1000))
    ∧ defaultOf cliParserSpec "--prune_rate_graph" = some (DefaultVal.rat (1 / 20))
    ∧ defaultOf cliParserSpec "--prune_rate_model" = some (DefaultVal.rat (4 / 5))
    ∧ (∀ long ∈ (["--reg_graph", "--reg_model", "--prune_rate_graph",
          "--prune_rate_model"] : List String), floatTyped cliParserSpec long = some true)
    ∧ defaultOf cliParserSpec "--task" = some DefaultVal.none
    ∧ storeTrueOf cliParserSpec "--verbose" = some true := by
  refine ⟨?_, rfl, rfl, rfl, rfl, rfl, rfl, ?_, rfl, rfl⟩
  · intro f
    simp [acceptsFlag, cliParserSpec, addArgument]
    tauto
  · intro long hl
    simp only [List.mem_cons, List.not_mem_nil, or_false] at hl
    rcases hl with h | h | h | h <;> subst h <;> rfl

/-- C4 witness: a sample accepted flag, a rejected flag, and a default. -/
theorem cli_flags_spec_witness :
    (acceptsFlag cliParserSpec "-d" = true ↔
      "-d" ∈ ["-d", "--dataset", "-m", "--model", "--reg_graph", "--reg_model",
           "--prune_rate_graph", "--prune_rate_model", "--task", "-v", "--verbose"])
    ∧ defaultOf cliParserSpec "--dataset" = some (DefaultVal.str "Cora")
    ∧ floatTyped cliParserSpec "--reg_graph" = some true :=
  ⟨cli_flags_spec.1 "-d", cli_flags_spec.2.1,
   cli_flags_spec.2.2.2.2.2.2.2.1 "--reg_graph" (by decide)⟩

/-! ### Score tracking in `baseline`

`baseline` initializes `best_val_score = 0.0` and `final_test_score = 0.0`
and, each epoch, runs
`if val_score > best_val_score: best_val_score = val_score;
final_test_score = test_score`; at the end it prints `final_test_score`.
The per-epoch `(val_score, test_score)` pairs come from the external model
evaluation and are abstracted as an input list (length 200 for the actual
run); scores are modelled as rationals. -/

/-- One epoch of the bookkeeping: state is
`(best_val_score, final_test_score)`, `vt` the epoch's
`(val_score, test_score)`. -/
def trackStep (bf : Rat × Rat) (vt : Rat × Rat) : Rat × Rat :=
  if bf.1 < vt.1 then (vt.1, vt.2) else bf

/-- The `(best_val_score, final_test_score)` pair after the epoch loop of
`baseline` over the given per-epoch scores; both components start at 0.0,
and the second component is what `baseline` prints at the end. -/
def baselineTrack (scores : List (Rat × Rat)) : Rat × Rat :=
  scores.foldl trackStep (0, 0)

/-- The validation score of epoch `i`. -/
def vOf (scores : List (Rat × Rat)) (i : Nat) : Rat := (scores.getD i (0, 0)).1

/-- The test score of epoch `i`. -/
def tOf (scores : List (Rat × Rat)) (i : Nat) : Rat := (scores.getD i (0, 0)).2

/-- Epoch `i`'s validation score strictly exceeds every earlier epoch's
validation score. -/
def IsRecord (scores : List (Rat × Rat)) (i : Nat) : Prop :=
  ∀ j, j < i → vOf scores j < vOf scores i

instance (s : List (Rat × Rat)) (i : Nat) : Decidable (IsRecord s i) :=
  inferInstanceAs (Decidable (∀ j, j < i → vOf s j < vOf s i))

/-- The running maximum of 0.0 and the validation scores seen so far (the
invariant value of `best_val_score`). -/
def maxv (scores : List (Rat × Rat)) : Rat :=
  scores.foldl (fun m vt => max m vt.1) 0

theorem baselineTrack_append_single (l : List (Rat × Rat)) (x : Rat × Rat) :
    baselineTrack (l ++ [x]) = trackStep (baselineTrack l) x := by
  unfold baselineTrack
  rw [List.foldl_append]
  rfl

theorem maxv_append_single (l : List (Rat × Rat)) (x : Rat × Rat) :
    maxv (l ++ [x]) = max (maxv l) x.1 := by
  unfold maxv
  rw [List.foldl_append]
  rfl

theorem trackStep_fst (bf vt : Rat × Rat) : (trackStep bf vt).1 = max bf.1 vt.1 := by
  unfold trackStep
  split
  · exact (max_eq_right (le_of_lt (by assumption))).symm
  · exact (max_eq_left (not_lt.mp (by assumption))).symm

theorem best_eq_maxv (l : List (Rat × Rat)) : (baselineTrack l).1 = maxv l := by
  induction l using List.reverseRecOn with
  | nil => rfl
  | append_singleton l x ih =>
    rw [baselineTrack_append_single, maxv_append_single, trackStep_fst, ih]

theorem maxv_nonneg (l : List (Rat × Rat)) : 0 ≤ maxv l := by
  induction l using List.reverseRecOn with
  | nil => exact le_refl 0
  | append_singleton l x ih =>
    rw [maxv_append_single]
    exact le_trans ih (le_max_left _ _)

theorem vOf_append_lt (l : List (Rat × Rat)) (x : Rat × Rat) (i : Nat)
    (h : i < l.length) : vOf (l ++ [x]) i = vOf l i := by
  unfold vOf
  simp [List.getD, List.getElem?_append, h]

theorem vOf_append_len (l : List (Rat × Rat)) (x : Rat × Rat) :
    vOf (l ++ [x]) l.length = x.1 := by
  unfold vOf
  simp [List.getD]

theorem tOf_append_lt (l : List (Rat × Rat)) (x : Rat × Rat) (i : Nat)
    (h : i < l.length) : tOf (l ++ [x]) i = tOf l i := by
  unfold tOf
  simp [List.getD, List.getElem?_append, h]

theorem tOf_append_len (l : List (Rat × Rat)) (x : Rat × Rat) :
    tOf (l ++ [x]) l.length = x.2 := by
  unfold tOf
  simp [List.getD]

theorem le_maxv (l : List (Rat × Rat)) (i : Nat) (h : i < l.length) :
    vOf l i ≤ maxv l := by
  induction l using List.reverseRecOn generalizing i with
  | nil => exact absurd h (Nat.not_lt_zero i)
  | append_singleton l x ih =>
    rw [maxv_append_single]
    simp only [List.length_append, List.length_singleton] at h
    rcases Nat.lt_succ_iff_lt_or_eq.mp h with h' | h'
    · rw [vOf_append_lt l x i h']
      exact le_trans (ih i h') (le_max_left _ _)
    · subst h'
      rw [vOf_append_len]
      exact le_max_right _ _

theorem maxv_attained (l : List (Rat × Rat)) :
    maxv l = 0 ∨ ∃ i, i < l.length ∧ vOf l i = maxv l := by
  induction l using List.reverseRecOn with
  | nil => exact Or.inl rfl
  | append_singleton l x ih =>
    rw [maxv_append_single]
    rcases le_or_lt x.1 (maxv l) with h | h
    · rw [max_eq_left h]
      rcases ih with h0 | ⟨i, hi, hv⟩
      · exact Or.inl h0
      · refine Or.inr ⟨i, ?_, ?_⟩
        · simp only [List.length_append, List.length_singleton]
          exact Nat.lt_succ_of_lt hi
        · rw [vOf_append_lt l x i hi]; exact hv
    · rw [max_eq_right (le_of_lt h)]
      refine Or.inr ⟨l.length, ?_, vOf_append_len l x⟩
      simp

theorem track_fst_le_foldl (t : List (Rat × Rat)) (init : Rat × Rat) :
    init.1 ≤ (List.foldl trackStep init t).1 := by
  induction t generalizing init with
  | nil => exact le_refl _
  | cons x xs ih =>
    rw [List.foldl_cons]
    refine le_trans ?_ (ih (trackStep init x))
    rw [trackStep_fst]
    exact le_max_left _ _

theorem track_snd_zero (l : List (Rat × Rat))
    (h : ∀ i, i < l.length → vOf l i ≤ 0) : (baselineTrack l).2 = 0 := by
  induction l using List.reverseRecOn with
  | nil => rfl
  | append_singleton l x ih =>
    rw [baselineTrack_append_single]
    have hx : x.1 ≤ 0 := by
      have hlen : l.length < (l ++ [x]).length := by simp
      have := h l.length hlen
      rwa [vOf_append_len] at this
    have hb : ¬ (baselineTrack l).1 < x.1 := by
      rw [best_eq_maxv]
      exact not_lt.mpr (le_trans hx (maxv_nonneg l))
    unfold trackStep
    rw [if_neg hb]
    refine ih fun i hi => ?_
    have hlen : i < (l ++ [x]).length := by
      simp only [List.length_append, List.length_singleton]
      exact Nat.lt_succ_of_lt hi
    have := h i hlen
    rwa [vOf_append_lt l x i hi] at this

theorem track_snd_record (l : List (Rat × Rat))
    (h : ∃ i, i < l.length ∧ 0 < vOf l i) :
    ∃ i, i < l.length ∧ IsRecord l i
      ∧ (∀ k, k < l.length → i < k → ¬ IsRecord l k)
      ∧ (baselineTrack l).2 = tOf l i := by
  induction l using List.reverseRecOn with
  | nil =>
    obtain ⟨i, hi, _⟩ := h
    exact absurd hi (Nat.not_lt_zero i)
  | append_singleton l x ih =>
    rw [baselineTrack_append_single]
    rcases lt_or_le (baselineTrack l).1 x.1 with hlt | hle
    · -- the last epoch strictly improves on the running best: it becomes
      -- the last record and both scores are overwritten with its scores
      refine ⟨l.length, by simp, ?_, ?_, ?_⟩
      · intro j hj
        rw [vOf_append_lt l x j hj, vOf_append_len]
        calc vOf l j ≤ maxv l := le_maxv l j hj
          _ = (baselineTrack l).1 := (best_eq_maxv l).symm
          _ < x.1 := hlt
      · intro k hk hik
        simp only [List.length_append, List.length_singleton] at hk
        omega
      · unfold trackStep
        rw [if_pos hlt, tOf_append_len]
    · -- no update: the previous last record stays the last record
      have hxle : x.1 ≤ maxv l := by rwa [best_eq_maxv] at hle
      have hpos : ∃ i, i < l.length ∧ 0 < vOf l i := by
        obtain ⟨i, hi, hp⟩ := h
        simp only [List.length_append, List.length_singleton] at hi
        rcases Nat.lt_succ_iff_lt_or_eq.mp hi with hi' | hi'
        · exact ⟨i, hi', by rwa [vOf_append_lt l x i hi'] at hp⟩
        · subst hi'
          rw [vOf_append_len] at hp
          have hm : 0 < maxv l := lt_of_lt_of_le hp hxle
          rcases maxv_attained l with h0 | ⟨j, hj, hv⟩
          · rw [h0] at hm; exact absurd hm (lt_irrefl 0)
          · exact ⟨j, hj, by rw [hv]; exact hm⟩
      obtain ⟨i0, hi0, hrec, hnolater, hsnd⟩ := ih hpos
      have hmpos : 0 < maxv l := by
        obtain ⟨i, hi, hp⟩ := hpos
        exact lt_of_lt_of_le hp (le_maxv l i hi)
      have hattained : ∃ j, j < l.length ∧ vOf l j = maxv l := by
        rcases maxv_attained l with h0 | h'
        · rw [h0] at hmpos; exact absurd hmpos (lt_irrefl 0)
        · exact h'
      obtain ⟨j0, hj0, hv0⟩ := hattained
      refine ⟨i0, ?_, ?_, ?_, ?_⟩
      · simp only [List.length_append, List.length_singleton]
        exact Nat.lt_succ_of_lt hi0
      · intro j hj
        rw [vOf_append_lt l x j (lt_trans hj hi0), vOf_append_lt l x i0 hi0]
        exact hrec j hj
      · intro k hk hik
        simp only [List.length_append, List.length_singleton] at hk
        rcases Nat.lt_succ_iff_lt_or_eq.mp hk with hk' | hk'
        · intro hreck
          apply hnolater k hk' hik
          intro j hj
          have := hreck j hj
          rwa [vOf_append_lt l x j (lt_trans hj hk'), vOf_append_lt l x k hk'] at this
        · subst hk'
          intro hreck
          have := hreck j0 hj0
          rw [vOf_append_lt l x j0 hj0, vOf_append_len, hv0] at this
          exact absurd this (not_lt.mpr hxle)
      · unfold trackStep
        rw [if_neg (not_lt.mpr hle), hsnd, tOf_append_lt l x i0 hi0]

/-- C9: `best_val_score` is non-decreasing across the epochs of `baseline`
(the value after any prefix of the epochs is at most the value after any
longer prefix), and the printed final test performance is the test score
recorded at the last epoch whose validation score strictly exceeded every
earlier epoch's validation score; if no epoch's validation score exceeds
0.0, it is 0.0. -/
theorem baseline_score_tracking (scores : List (Rat × Rat)) :
    (∀ i j, i ≤ j →
      (baselineTrack (scores.take i)).1 ≤ (baselineTrack (scores.take j)).1)
    ∧ ((∀ i, i < scores.length → vOf scores i ≤ 0) → (baselineTrack scores).2 = 0)
    ∧ ((∃ i, i < scores.length ∧ 0 < vOf scores i) →
      ∃ i, i < scores.length ∧ IsRecord scores i
        ∧ (∀ k, k < scores.length → i < k → ¬ IsRecord scores k)
        ∧ (baselineTrack scores).2 = tOf scores i) := by
  refine ⟨?_, track_snd_zero scores, track_snd_record scores⟩
  intro i j hij
  have hsplit : scores.take j = scores.take i ++ ((scores.take j).drop i) := by
    conv_lhs => rw [← List.take_append_drop i (scores.take j)]
    rw [List.take_take, min_eq_left hij]
  rw [hsplit]
  unfold baselineTrack
  rw [List.foldl_append]
  exact track_fst_le_foldl _ _

/-- A score list whose validation scores never exceed 0.0. -/
def sNonPos : List (Rat × Rat) := [(-1, 4), (0, 6)]

/-- C9 witness: monotonicity of the running best and the zero case on a
concrete score list. -/
theorem baseline_score_tracking_witness :
    (baselineTrack (sNonPos.take 0)).1 ≤ (baselineTrack (sNonPos.take 2)).1
    ∧ (baselineTrack sNonPos).2 = 0 :=
  ⟨(baseline_score_tracking sNonPos).1 0 2 (by norm_num),
   (baseline_score_tracking sNonPos).2.1 (by decide)⟩

end GLT
